import Mathlib

/-!
Verification of the `clustering_algorithms` facade of OpenEnsembles
(`clustering_algorithms.py`), a parameter-normalization facade over external
clustering routines.  Python values that appear as option defaults are embedded
as `PyVal`; Python dictionaries as association lists with unique keys in
insertion order; the external numerical routine (sklearn) as an oracle
`Fit` that the per-algorithm methods call with the argument record they
construct.  Machine floats in the source are literal constants that are never
computed with, so they are embedded as exact rationals.
-/

/-- Embedding of the Python values appearing as option values in the source:
strings, ints, floats (literals only, embedded exactly as rationals), booleans,
`None`, named function objects (`np.mean`), and one-element tuples (which arise
from the trailing commas on lines 166-167 of the source). -/
inductive PyVal where
  | str (s : String)
  | int (n : Int)
  | float (q : ℚ)
  | bool (b : Bool)
  | none
  | func (name : String)
  | tuple1 (v : PyVal)
  deriving DecidableEq, Repr

/-- A Python dict with string keys, as an association list in insertion order
(keys unique in every dict the source builds). -/
abbrev Dict := List (String × PyVal)

/-- Python dict lookup `d[k]` / `k in d`: first binding of `k`. -/
def dictFind (d : Dict) (k : String) : Option PyVal :=
  match d with
  | [] => Option.none
  | (k2, v) :: rest => if k2 = k then some v else dictFind rest k

/-- The key list of a dict, in insertion order. -/
def dictKeys (d : Dict) : List String := d.map Prod.fst

/-- The merge loop shared by all four algorithm methods (source lines 66-69,
110-113, 146-148, 170-172):
`overlap = set(params.keys()) & set(self.var_params.keys());
for key in overlap: params[key] = self.var_params[key]`.
The result keeps exactly the default keys, in insertion order, each mapped to
the overlay's value when the overlay has that key and to the default
otherwise. -/
def mergeParams (defaults overlay : Dict) : Dict :=
  defaults.map (fun p => (p.1, (dictFind overlay p.1).getD p.2))

/-- A dataset: an N×M numeric table (rows of rationals). -/
abbrev Data := List (List ℚ)

/-- The facade's instance state set up in `__init__` (source lines 18-27):
`self.data`, `self.out` (the Assignment, initially `[]`), `self.var_params`
(initially the caller's kwargs overlay), `self.K`. -/
structure CAState where
  data : Data
  out : List Int
  var_params : Dict
  K : Nat
  deriving DecidableEq, Repr

/-- `__init__(self, data, kwargs, K=2)`: store the arguments verbatim,
`out = []`. -/
def initState (data : Data) (kwargs : Dict) (K : Nat := 2) : CAState :=
  { data := data, out := [], var_params := kwargs, K := K }

/-- The argument record a method passes to the external clustering routine:
the routine's name, the `n_clusters` argument when one is passed, the keyword
arguments in source order, and the dataset handed to `.fit`. -/
structure ExtCall where
  routine : String
  k : Option Nat
  args : List (String × PyVal)
  dataArg : Data
  deriving DecidableEq, Repr

/-- The external numerical routine as an oracle: given the constructed call it
either raises (an error string) or returns the per-item label sequence
`labels_`. -/
abbrev Fit := ExtCall → Except String (List Int)

/-- Keyword-argument lookup `params[key]` on a merged dict whose keys are
provably present. -/
def argOf (p : Dict) (k : String) : PyVal := (dictFind p k).getD PyVal.none

/-- kmeans defaults, source lines 56-65. -/
def kmeansDefaults : Dict :=
  [("init", PyVal.str "k-means++"),
   ("n_init", PyVal.int 10),
   ("max_iter", PyVal.int 300),
   ("tol", PyVal.float (1 / 10000)),
   ("precompute_distances", PyVal.str "auto"),
   ("verbose", PyVal.int 0),
   ("random_state", PyVal.none),
   ("copy_x", PyVal.bool true),
   ("n_jobs", PyVal.int 1)]

/-- The merged option dict the kmeans method builds (lines 56-69). -/
def kmeansParams (s : CAState) : Dict := mergeParams kmeansDefaults s.var_params

/-- The call `skc.KMeans(n_clusters=self.K, init=..., ..., n_jobs=...)`
followed by `.fit(self.data)` (lines 70-74), keyword arguments in source
order. -/
def kmeansCall (s : CAState) : ExtCall :=
  let p := kmeansParams s
  { routine := "KMeans", k := some s.K,
    args := [("init", argOf p "init"), ("n_init", argOf p "n_init"),
             ("max_iter", argOf p "max_iter"), ("tol", argOf p "tol"),
             ("precompute_distances", argOf p "precompute_distances"),
             ("verbose", argOf p "verbose"),
             ("random_state", argOf p "random_state"),
             ("copy_x", argOf p "copy_x"), ("n_jobs", argOf p "n_jobs")],
    dataArg := s.data }

/-- `kmeans(self)`, source lines 41-76.  On an exception from the external
routine the method is left, the fields untouched (lines 75-76 run only after
`fit` returns). -/
def kmeans (fit : Fit) (s : CAState) : Except String Unit × CAState :=
  let params := kmeansParams s
  match fit (kmeansCall s) with
  | Except.error e => (Except.error e, s)
  | Except.ok labels =>
      (Except.ok (), { s with out := labels, var_params := params })

/-- spectral defaults, source lines 96-108. -/
def spectralDefaults : Dict :=
  [("eigen_solver", PyVal.none),
   ("random_state", PyVal.none),
   ("n_init", PyVal.int 10),
   ("gamma", PyVal.float 1),
   ("affinity", PyVal.str "rbf"),
   ("n_neighbors", PyVal.int 10),
   ("eigen_tol", PyVal.str "0.0"),
   ("assign_labels", PyVal.str "kmeans"),
   ("degree", PyVal.int 3),
   ("coef0", PyVal.int 1),
   ("kernel_params", PyVal.none)]

/-- The merged option dict the spectral method builds (lines 96-113). -/
def spectralParams (s : CAState) : Dict :=
  mergeParams spectralDefaults s.var_params

/-- The call `skc.SpectralClustering(n_clusters=self.K, ...)` of lines
116-119, keyword arguments in source order.  Note the source passes every
merged option except `degree`, which is merged into `params` but never
forwarded. -/
def spectralCall (s : CAState) : ExtCall :=
  let p := spectralParams s
  { routine := "SpectralClustering", k := some s.K,
    args := [("n_neighbors", argOf p "n_neighbors"), ("gamma", argOf p "gamma"),
             ("eigen_solver", argOf p "eigen_solver"),
             ("random_state", argOf p "random_state"),
             ("n_init", argOf p "n_init"), ("affinity", argOf p "affinity"),
             ("coef0", argOf p "coef0"),
             ("kernel_params", argOf p "kernel_params"),
             ("eigen_tol", argOf p "eigen_tol"),
             ("assign_labels", argOf p "assign_labels")],
    dataArg := s.data }

/-- `spectral(self)`, source lines 79-122. -/
def spectral (fit : Fit) (s : CAState) : Except String Unit × CAState :=
  let params := spectralParams s
  match fit (spectralCall s) with
  | Except.error e => (Except.error e, s)
  | Except.ok labels =>
      (Except.ok (), { s with out := labels, var_params := params })

/-- agglomerative defaults, source lines 137-144. -/
def agglomerativeDefaults : Dict :=
  [("affinity", PyVal.str "euclidean"),
   ("connectivity", PyVal.none),
   ("n_components", PyVal.none),
   ("compute_full_tree", PyVal.str "auto"),
   ("linkage", PyVal.str "ward"),
   ("pooling_func", PyVal.func "np.mean")]

/-- The merged option dict the agglomerative method builds (lines 137-148). -/
def agglomerativeParams (s : CAState) : Dict :=
  mergeParams agglomerativeDefaults s.var_params

/-- The call `skc.AgglomerativeClustering(n_clusters=self.K, ...)` of lines
149-151, keyword arguments in source order. -/
def agglomerativeCall (s : CAState) : ExtCall :=
  let p := agglomerativeParams s
  { routine := "AgglomerativeClustering", k := some s.K,
    args := [("affinity", argOf p "affinity"),
             ("connectivity", argOf p "connectivity"),
             ("n_components", argOf p "n_components"),
             ("compute_full_tree", argOf p "compute_full_tree"),
             ("linkage", argOf p "linkage"),
             ("pooling_func", argOf p "pooling_func")],
    dataArg := s.data }

/-- `agglomerative(self)`, source lines 125-154. -/
def agglomerative (fit : Fit) (s : CAState) : Except String Unit × CAState :=
  let params := agglomerativeParams s
  match fit (agglomerativeCall s) with
  | Except.error e => (Except.error e, s)
  | Except.ok labels =>
      (Except.ok (), { s with out := labels, var_params := params })

/-- DBSCAN defaults, source lines 161-168.  The trailing commas on
`params['leaf_size']=30,` (line 166) and `params['p']=None,` (line 167) make
these two defaults one-element tuples `(30,)` and `(None,)` in Python, which
the embedding reproduces faithfully. -/
def dbscanDefaults : Dict :=
  [("eps", PyVal.float (1 / 2)),
   ("min_samples", PyVal.int 5),
   ("metric", PyVal.str "euclidean"),
   ("algorithm", PyVal.str "auto"),
   ("leaf_size", PyVal.tuple1 (PyVal.int 30)),
   ("p", PyVal.tuple1 PyVal.none),
   ("random_state", PyVal.none)]

/-- The merged option dict the DBSCAN method builds (lines 161-172). -/
def dbscanParams (s : CAState) : Dict := mergeParams dbscanDefaults s.var_params

/-- The call `skc.DBSCAN(eps=..., ..., random_state=...)` of lines 174-176,
keyword arguments in source order.  The source passes no `n_clusters`
argument to DBSCAN. -/
def dbscanCall (s : CAState) : ExtCall :=
  let p := dbscanParams s
  { routine := "DBSCAN", k := Option.none,
    args := [("eps", argOf p "eps"), ("min_samples", argOf p "min_samples"),
             ("metric", argOf p "metric"), ("algorithm", argOf p "algorithm"),
             ("leaf_size", argOf p "leaf_size"), ("p", argOf p "p"),
             ("random_state", argOf p "random_state")],
    dataArg := s.data }

/-- `DBSCAN(self)`, source lines 156-179. -/
def DBSCAN (fit : Fit) (s : CAState) : Except String Unit × CAState :=
  let params := dbscanParams s
  match fit (dbscanCall s) with
  | Except.error e => (Except.error e, s)
  | Except.ok labels =>
      (Except.ok (), { s with out := labels, var_params := params })

/-- The four per-algorithm operations of the facade. -/
inductive Alg where
  | kmeans | spectral | agglomerative | dbscan
  deriving DecidableEq, Repr

/-- Each algorithm's hard-coded default mapping. -/
def algDefaults : Alg → Dict
  | Alg.kmeans => kmeansDefaults
  | Alg.spectral => spectralDefaults
  | Alg.agglomerative => agglomerativeDefaults
  | Alg.dbscan => dbscanDefaults

/-- The call record each algorithm method constructs for the external
routine. -/
def algCall : Alg → CAState → ExtCall
  | Alg.kmeans => kmeansCall
  | Alg.spectral => spectralCall
  | Alg.agglomerative => agglomerativeCall
  | Alg.dbscan => dbscanCall

/-- Dispatch to the four methods. -/
def runAlg : Alg → Fit → CAState → Except String Unit × CAState
  | Alg.kmeans => kmeans
  | Alg.spectral => spectral
  | Alg.agglomerative => agglomerative
  | Alg.dbscan => DBSCAN

/-- The Python method name of each algorithm operation. -/
def algName : Alg → String
  | Alg.kmeans => "kmeans"
  | Alg.spectral => "spectral"
  | Alg.agglomerative => "agglomerative"
  | Alg.dbscan => "DBSCAN"

/-- The callable attributes `dir(self)` enumerates on a
`clustering_algorithms` instance, in `dir`'s sorted order: the five defined
methods plus the callable dunder members inherited from `object`
(the instance data attributes `data`, `out`, `var_params`, `K` are not
callable and are dropped by the comprehension on line 33). -/
def dirCallables : List String :=
  ["DBSCAN", "__class__", "__delattr__", "__dir__", "__eq__", "__format__",
   "__ge__", "__getattribute__", "__gt__", "__hash__", "__init__",
   "__init_subclass__", "__le__", "__lt__", "__ne__", "__new__", "__reduce__",
   "__reduce_ex__", "__repr__", "__setattr__", "__sizeof__", "__str__",
   "__subclasshook__", "agglomerative", "clustering_algorithms_available",
   "kmeans", "spectral"]

/-- `re.match('__', method)`: the name begins with two underscores. -/
def isDunder (m : String) : Bool :=
  match m.data with
  | '_' :: '_' :: _ => true
  | _ => false

/-- `clustering_algorithms_available(self)`, source lines 32-39: remove the
discovery method itself, drop the names matching `re.match('__', ...)` (a
double-underscore prefix), map each survivor to `''`.  The method only reads
`self`, so the state component is returned unchanged. -/
def clustering_algorithms_available (s : CAState) :
    List (String × String) × CAState :=
  let methods := dirCallables.erase "clustering_algorithms_available"
  let methodDict := methods.foldl
    (fun acc m => if isDunder m then acc else acc ++ [(m, "")]) []
  (methodDict, s)

/-!  A heap-level model of the overlay dictionary's identity, for the
aliasing claim: Python dictionaries live in a store (addresses are indices),
the facade field `self.var_params` holds an address, `params = {}` allocates a
fresh dictionary at the end of the store, the merge loop reads the dictionary
at the stored address, and `self.var_params = params` rebinds the field to the
new address.  Labels and the dataset play no role in which dictionaries get
written, so the store holds only dictionaries. -/

/-- One algorithm invocation at the heap level (any of the four methods:
they handle `self.var_params` identically): read the overlay at `addr`,
allocate the merged dict, rebind the field to the fresh address.  Returns the
new store and the new value of the `var_params` field. -/
def runAlgH (a : Alg) (store : List Dict) (addr : Nat) : List Dict × Nat :=
  let ov := (store.get? addr).getD []
  let params := mergeParams (algDefaults a) ov
  (store ++ [params], store.length)

/-- A sequence of invocations at the heap level, threading store and the
`var_params` address. -/
def runSeqH (l : List Alg) (store : List Dict) (addr : Nat) :
    List Dict × Nat :=
  match l with
  | [] => (store, addr)
  | a :: rest =>
      let r := runAlgH a store addr
      runSeqH rest r.1 r.2

section Lemmas

/-- Lookup in a merged dict: present iff present in the defaults; the value is
the overlay's when the overlay has the key, the default otherwise. -/
theorem dictFind_mergeParams (D ov : Dict) (k : String) :
    dictFind (mergeParams D ov) k =
      (dictFind D k).map (fun dv => (dictFind ov k).getD dv) := by
  induction D with
  | nil => rfl
  | cons p rest ih =>
      by_cases h : p.1 = k
      · simp [mergeParams, dictFind, h]
      · simpa [mergeParams, dictFind, h] using ih

/-- Merging with an empty overlay returns the defaults unchanged. -/
theorem mergeParams_nil (D : Dict) : mergeParams D [] = D := by
  induction D with
  | nil => rfl
  | cons p rest ih => simp only [mergeParams, List.map] at ih ⊢; simp [dictFind, ih]

/-- Merging never changes the key list. -/
theorem dictKeys_mergeParams (D ov : Dict) :
    dictKeys (mergeParams D ov) = dictKeys D := by
  simp [dictKeys, mergeParams]

/-- On the success path every method stores the merged params in
`var_params`. -/
theorem runAlg_ok_var_params (a : Alg) (fit : Fit) (s : CAState)
    (h : (runAlg a fit s).1 = Except.ok ()) :
    ((runAlg a fit s).2).var_params = mergeParams (algDefaults a) s.var_params := by
  cases a <;>
    simp only [runAlg, kmeans, spectral, agglomerative, DBSCAN, algDefaults,
      kmeansParams, spectralParams, agglomerativeParams, dbscanParams] at h ⊢ <;>
    [cases hf : fit (kmeansCall s); cases hf : fit (spectralCall s);
     cases hf : fit (agglomerativeCall s); cases hf : fit (dbscanCall s)] <;>
    simp [hf] at h ⊢

/-- On the success path every method stores the routine's labels in `out`. -/
theorem runAlg_ok_out (a : Alg) (fit : Fit) (s : CAState) (labels : List Int)
    (h : fit (algCall a s) = Except.ok labels) :
    ((runAlg a fit s).2).out = labels := by
  cases a <;> simp only [algCall] at h <;>
    simp [runAlg, kmeans, spectral, agglomerative, DBSCAN, h]

end Lemmas

section SampleInputs

/-- A sample 2-row dataset used to instantiate theorems with hypotheses. -/
def dataW : Data := [[0], [1]]

/-- A successful external routine producing one label per row of `dataW`. -/
def fitOk : Fit := fun _ => Except.ok [0, 1]

/-- An external routine that always raises. -/
def fitErr : Fit := fun _ => Except.error "bad input"

/-- A sample construction-time overlay that overrides the DBSCAN leaf size. -/
def ovLeaf : Dict := [("leaf_size", PyVal.int 7)]

/-- A sample facade built with `ovLeaf`. -/
def sLeaf : CAState := initState dataW ovLeaf 2

end SampleInputs

/-- C1: for each algorithm method invoked as the first invocation after
construction, each option name in both the defaults and the overlay gets the
overlay's value in the stored EffectiveOptions; a name only in the overlay is
absent; a recognized name absent from the overlay keeps its default; with an
empty overlay EffectiveOptions equals the hard-coded defaults exactly. -/
theorem first_invocation_merge_semantics (a : Alg) (d : Data) (ov : Dict)
    (K : Nat) (fit : Fit)
    (h : (runAlg a fit (initState d ov K)).1 = Except.ok ()) :
    (∀ k v, dictFind ov k = some v → (dictFind (algDefaults a) k).isSome →
      dictFind ((runAlg a fit (initState d ov K)).2).var_params k = some v) ∧
    (∀ k, dictFind (algDefaults a) k = Option.none →
      dictFind ((runAlg a fit (initState d ov K)).2).var_params k = Option.none) ∧
    (∀ k v, dictFind (algDefaults a) k = some v → dictFind ov k = Option.none →
      dictFind ((runAlg a fit (initState d ov K)).2).var_params k = some v) ∧
    (ov = [] → ((runAlg a fit (initState d ov K)).2).var_params = algDefaults a) := by
  have hv := runAlg_ok_var_params a fit (initState d ov K) h
  have hov : (initState d ov K).var_params = ov := rfl
  rw [hov] at hv
  refine ⟨?_, ?_, ?_, ?_⟩
  · intro k v hk hd
    rw [hv, dictFind_mergeParams]
    rcases hs : dictFind (algDefaults a) k with _ | dv
    · rw [hs] at hd; simp at hd
    · simp [hk]
  · intro k hd
    rw [hv, dictFind_mergeParams, hd]
    rfl
  · intro k v hd hk
    rw [hv, dictFind_mergeParams, hd, hk]
    rfl
  · intro hnil
    rw [hv, hnil, mergeParams_nil]

/-- Witness for C1 at a concrete input: kmeans as the first invocation on a
facade built with overlay `n_init = 5`. -/
theorem first_invocation_merge_semantics_witness :
    (runAlg Alg.kmeans fitOk (initState dataW [("n_init", PyVal.int 5)] 2)).1
        = Except.ok () ∧
    dictFind
        ((runAlg Alg.kmeans fitOk
          (initState dataW [("n_init", PyVal.int 5)] 2)).2).var_params "n_init"
      = some (PyVal.int 5) :=
  ⟨rfl,
    (first_invocation_merge_semantics Alg.kmeans dataW
        [("n_init", PyVal.int 5)] 2 fitOk rfl).1 "n_init" (PyVal.int 5) rfl
        (by decide)⟩

/-- C2 counterexample: the overlay consulted by the merge step does not remain
the construction-time mapping.  With overlay `leaf_size = 7`, invoking kmeans
rebinds `var_params` to kmeans' effective options (dropping `leaf_size`), so a
subsequent DBSCAN stores the tuple default `(30,)` for `leaf_size` while a
fresh facade with the same overlay stores `7`. -/
theorem overlay_readonly_counterexample :
    ((kmeans fitOk sLeaf).2).var_params ≠ sLeaf.var_params ∧
    dictFind ((DBSCAN fitOk (kmeans fitOk sLeaf).2).2).var_params "leaf_size"
      ≠ dictFind ((DBSCAN fitOk sLeaf).2).var_params "leaf_size" := by
  decide

/-- C2 amended: each successful invocation rebinds `var_params` to its merged
effective options, so the overlay consulted by the next invocation is the
previous invocation's EffectiveOptions, not the construction-time mapping:
after A then B, B's stored EffectiveOptions is B's defaults merged with A's
effective options (rather than with the caller's overlay). -/
theorem overlay_rebound_to_effective_options (a b : Alg) (fit : Fit) (d : Data)
    (ov : Dict) (K : Nat)
    (h1 : (runAlg a fit (initState d ov K)).1 = Except.ok ())
    (h2 : (runAlg b fit ((runAlg a fit (initState d ov K)).2)).1 = Except.ok ()) :
    ((runAlg a fit (initState d ov K)).2).var_params
        = mergeParams (algDefaults a) ov ∧
    ((runAlg b fit ((runAlg a fit (initState d ov K)).2)).2).var_params
        = mergeParams (algDefaults b) (mergeParams (algDefaults a) ov) := by
  have hv1 := runAlg_ok_var_params a fit (initState d ov K) h1
  have hv2 := runAlg_ok_var_params b fit ((runAlg a fit (initState d ov K)).2) h2
  rw [hv1] at hv2
  exact ⟨hv1, hv2⟩

/-- Witness for the amended C2 at a concrete input: kmeans then DBSCAN. -/
theorem overlay_rebound_to_effective_options_witness :
    ((runAlg Alg.dbscan fitOk
        ((runAlg Alg.kmeans fitOk (initState dataW ovLeaf 2)).2)).2).var_params
      = mergeParams dbscanDefaults (mergeParams kmeansDefaults ovLeaf) :=
  (overlay_rebound_to_effective_options Alg.kmeans Alg.dbscan fitOk dataW
    ovLeaf 2 rfl rfl).2

/-- C3: the DBSCAN defaults for `leaf_size` and `p` are the one-element tuples
`(30,)` and `(None,)` (trailing commas, source lines 166-167), not the scalars
30 and None that the claim and the method's own docstring (line 158) state;
with an empty overlay the stored EffectiveOptions carries the tuples. -/
theorem dbscan_tuple_defaults :
    dictFind dbscanDefaults "leaf_size" = some (PyVal.tuple1 (PyVal.int 30)) ∧
    dictFind dbscanDefaults "p" = some (PyVal.tuple1 PyVal.none) ∧
    dictFind ((DBSCAN fitOk (initState dataW [] 2)).2).var_params "leaf_size"
      ≠ some (PyVal.int 30) ∧
    dictFind ((DBSCAN fitOk (initState dataW [] 2)).2).var_params "p"
      ≠ some PyVal.none := by
  decide

/-- C4 counterexample: DBSCAN is invoked without any cluster-count argument,
and spectral merges the recognized option `degree` but never passes it to the
external routine. -/
theorem external_call_counterexample :
    (dbscanCall (initState dataW [] 2)).k = Option.none ∧
    dictFind (spectralCall (initState dataW [] 2)).args "degree" = Option.none ∧
    dictFind (spectralParams (initState dataW [] 2)) "degree"
      = some (PyVal.int 3) := by
  decide

/-- C4 amended: kmeans and agglomerative invoke the external routine with the
stored K, the fully merged option set and the dataset; spectral passes K and
the dataset but forwards the merged set minus `degree`; DBSCAN passes the
merged set and the dataset without any cluster count. -/
theorem external_call_arguments (s : CAState) :
    ((kmeansCall s).k = some s.K ∧ (kmeansCall s).args = kmeansParams s ∧
      (kmeansCall s).dataArg = s.data) ∧
    ((agglomerativeCall s).k = some s.K ∧
      (agglomerativeCall s).args = agglomerativeParams s ∧
      (agglomerativeCall s).dataArg = s.data) ∧
    ((spectralCall s).k = some s.K ∧ (spectralCall s).dataArg = s.data ∧
      dictFind (spectralCall s).args "degree" = Option.none ∧
      dictFind (spectralCall s).args "n_neighbors"
        = dictFind (spectralParams s) "n_neighbors" ∧
      dictFind (spectralCall s).args "gamma"
        = dictFind (spectralParams s) "gamma" ∧
      dictFind (spectralCall s).args "eigen_solver"
        = dictFind (spectralParams s) "eigen_solver" ∧
      dictFind (spectralCall s).args "random_state"
        = dictFind (spectralParams s) "random_state" ∧
      dictFind (spectralCall s).args "n_init"
        = dictFind (spectralParams s) "n_init" ∧
      dictFind (spectralCall s).args "affinity"
        = dictFind (spectralParams s) "affinity" ∧
      dictFind (spectralCall s).args "coef0"
        = dictFind (spectralParams s) "coef0" ∧
      dictFind (spectralCall s).args "kernel_params"
        = dictFind (spectralParams s) "kernel_params" ∧
      dictFind (spectralCall s).args "eigen_tol"
        = dictFind (spectralParams s) "eigen_tol" ∧
      dictFind (spectralCall s).args "assign_labels"
        = dictFind (spectralParams s) "assign_labels") ∧
    ((dbscanCall s).k = Option.none ∧ (dbscanCall s).args = dbscanParams s ∧
      (dbscanCall s).dataArg = s.data) := by
  repeat' apply And.intro
  all_goals rfl

/-- C5: after every invocation, successful in the sense that the external
routine returned, the stored EffectiveOptions has exactly the algorithm's
recognized option names as its keys, whatever the overlay and prior
invocations were. -/
theorem effective_options_keys (a : Alg) (fit : Fit) (s : CAState)
    (h : (runAlg a fit s).1 = Except.ok ()) :
    dictKeys ((runAlg a fit s).2).var_params = dictKeys (algDefaults a) := by
  rw [runAlg_ok_var_params a fit s h, dictKeys_mergeParams]

/-- Witness for C5 at a concrete input: DBSCAN on a facade whose overlay holds
a key recognized by DBSCAN, after a prior kmeans run. -/
theorem effective_options_keys_witness :
    (runAlg Alg.dbscan fitOk ((runAlg Alg.kmeans fitOk sLeaf).2)).1
        = Except.ok () ∧
    dictKeys
        ((runAlg Alg.dbscan fitOk
          ((runAlg Alg.kmeans fitOk sLeaf).2)).2).var_params
      = dictKeys dbscanDefaults :=
  ⟨rfl,
    effective_options_keys Alg.dbscan fitOk
      ((runAlg Alg.kmeans fitOk sLeaf).2) rfl⟩

/-- C6: the discovery operation returns the mapping whose keys are exactly the
four invocable algorithm method names (its own name and all
double-underscore-prefixed members excluded), each mapped to the empty-string
placeholder, and it leaves the facade state unchanged. -/
theorem available_algorithms_spec (s : CAState) :
    (clustering_algorithms_available s).1 =
      [("DBSCAN", ""), ("agglomerative", ""), ("kmeans", ""), ("spectral", "")] ∧
    (∀ a : Alg, algName a ∈ (clustering_algorithms_available s).1.map Prod.fst) ∧
    "clustering_algorithms_available"
      ∉ (clustering_algorithms_available s).1.map Prod.fst ∧
    (clustering_algorithms_available s).2 = s := by
  have h1 : (clustering_algorithms_available s).1 =
      [("DBSCAN", ""), ("agglomerative", ""), ("kmeans", ""), ("spectral", "")] :=
    rfl
  refine ⟨h1, ?_, ?_, rfl⟩
  · intro a; rw [h1]; cases a <;> decide
  · rw [h1]; decide

/-- C7: when the external routine raises, the error propagates to the caller
unmodified and the whole facade state — Assignment, EffectiveOptions, dataset
and K — is exactly as before the failed call (the stores on the last two lines
of each method run only after the routine returns). -/
theorem external_error_propagates (a : Alg) (fit : Fit) (s : CAState)
    (e : String) (h : fit (algCall a s) = Except.error e) :
    runAlg a fit s = (Except.error e, s) := by
  cases a <;> simp only [algCall] at h <;>
    simp [runAlg, kmeans, spectral, agglomerative, DBSCAN, h]

/-- Witness for C7 at a concrete input: a failing routine under spectral. -/
theorem external_error_propagates_witness :
    fitErr (algCall Alg.spectral sLeaf) = Except.error "bad input" ∧
    runAlg Alg.spectral fitErr sLeaf = (Except.error "bad input", sLeaf) :=
  ⟨rfl, external_error_propagates Alg.spectral fitErr sLeaf "bad input" rfl⟩

/-- C8: when the external routine returns one label per dataset row, the
stored Assignment after the invocation has exactly as many entries as the
dataset has items, for every algorithm. -/
theorem assignment_length (a : Alg) (fit : Fit) (s : CAState)
    (labels : List Int) (h : fit (algCall a s) = Except.ok labels)
    (hlen : labels.length = s.data.length) :
    ((runAlg a fit s).2).out.length = s.data.length := by
  rw [runAlg_ok_out a fit s labels h]
  exact hlen

/-- Witness for C8 at a concrete input: two rows, two labels, agglomerative. -/
theorem assignment_length_witness :
    fitOk (algCall Alg.agglomerative (initState dataW [] 2))
        = Except.ok [0, 1] ∧
    ((runAlg Alg.agglomerative fitOk (initState dataW [] 2)).2).out.length
      = (initState dataW [] 2).data.length :=
  ⟨rfl,
    assignment_length Alg.agglomerative fitOk (initState dataW [] 2) [0, 1]
      rfl rfl⟩

/-- C9: no algorithm invocation and no discovery call touches the stored
dataset or K: after any sequence of invocations (successful or failing) both
fields equal the construction-time values, and each single invocation changes
at most `out` and `var_params`. -/
theorem data_and_K_never_modified (l : List Alg) (fit : Fit) (s : CAState) :
    ((l.foldl (fun st a => (runAlg a fit st).2) s).data = s.data ∧
     (l.foldl (fun st a => (runAlg a fit st).2) s).K = s.K) ∧
    (∀ a : Alg, ((runAlg a fit s).2).data = s.data ∧
      ((runAlg a fit s).2).K = s.K) ∧
    (clustering_algorithms_available s).2 = s := by
  have step : ∀ (a : Alg) (st : CAState),
      ((runAlg a fit st).2).data = st.data ∧ ((runAlg a fit st).2).K = st.K := by
    intro a st
    cases a <;>
      simp only [runAlg, kmeans, spectral, agglomerative, DBSCAN] <;>
      [cases fit (kmeansCall st); cases fit (spectralCall st);
       cases fit (agglomerativeCall st); cases fit (dbscanCall st)] <;>
      simp
  refine ⟨?_, fun a => step a s, rfl⟩
  induction l generalizing s with
  | nil => exact ⟨rfl, rfl⟩
  | cons a rest ih =>
      have h1 := step a s
      have h2 := ih ((runAlg a fit s).2)
      simp only [List.foldl] at h2 ⊢
      exact ⟨h2.1.trans h1.1, h2.2.trans h1.2⟩

/-- C10: at the heap level, no sequence of algorithm invocations ever writes
to a previously existing dictionary: each invocation allocates a fresh merged
dict and rebinds the facade field, so the caller's construction-time overlay
dictionary (any address already in the store) still holds its original
contents afterwards. -/
theorem caller_overlay_dict_never_mutated (l : List Alg) (store : List Dict)
    (addr j : Nat) (h : j < store.length) :
    ((runSeqH l store addr).1).get? j = store.get? j := by
  induction l generalizing store addr with
  | nil => rfl
  | cons a rest ih =>
      have hgrow : j <
          (store ++ [mergeParams (algDefaults a) ((store.get? addr).getD [])]).length := by
        rw [List.length_append]
        omega
      calc ((runSeqH (a :: rest) store addr).1).get? j
          = ((runSeqH rest
              (store ++ [mergeParams (algDefaults a) ((store.get? addr).getD [])])
              store.length).1).get? j := rfl
        _ = (store ++ [mergeParams (algDefaults a) ((store.get? addr).getD [])]).get? j :=
            ih _ _ hgrow
        _ = store.get? j := by
            rw [List.get?_eq_getElem?, List.getElem?_append_left h,
              List.get?_eq_getElem?]

/-- Witness for C10 at a concrete input: the caller's dict at address 0
survives a kmeans-then-DBSCAN sequence. -/
theorem caller_overlay_dict_never_mutated_witness :
    (0 : Nat) < [ovLeaf].length ∧
    ((runSeqH [Alg.kmeans, Alg.dbscan] [ovLeaf] 0).1).get? 0 = [ovLeaf].get? 0 :=
  ⟨by decide,
    caller_overlay_dict_never_mutated [Alg.kmeans, Alg.dbscan] [ovLeaf] 0 0
      (by decide)⟩
